import Mathlib

/-!
Verification of the LOTL-APEX-UNIFIED gateway core against its design
specification.  The Python sources under `apps/lotlops-agent/` are shallowly
embedded: pure logic becomes Lean functions, the process-wide mutable state
(rate-limiter buckets, SQLite-backed memory/task store) becomes explicit
state passing, and the points where the code calls out of the repository
(HMAC-SHA256, the spawned child process, the Ollama completer, the FTS5
search engine) become explicit parameters of the embedded functions, so that
every theorem quantifies over their behaviour.
-/

namespace LotlOps

/-! ## Allowlisted shell executor (`shell_planner/task_engine.py`)

`shlex.split(command)` (POSIX mode, `whitespace_split=True`, no comment
characters) is embedded as `shlexSplit`.  The lexer states mirror the CPython
`shlex.read_token` loop: whitespace scanning, an unquoted word, a single-quoted
region (no escapes), a double-quoted region (backslash escapes only `\` and
`"`; any other escaped character keeps the backslash), and the two
backslash-escape states.  `none` models the `ValueError` raised on an
unterminated quote or a trailing escape character. -/

inductive LexState where
  | ws
  | word
  | squote
  | dquote
  | escWord
  | escDquote
deriving DecidableEq

/-- Whitespace characters of `shlex`: space, tab, CR, LF. -/
def shlexWS (c : Char) : Bool :=
  c = ' ' || c = '\t' || c = '\r' || c = '\n'

/-- One pass of the CPython `shlex.read_token` loop over the remaining input.
`tok` is the token being assembled, `quoted` records whether the current
token contained a quoted region (so that a pair of quotes yields an
empty token). -/
def shlexLoop : List Char → LexState → List Char → Bool → Option (List String)
  | [], .ws, _, _ => some []
  | [], .word, tok, quoted =>
      if tok = [] && !quoted then some [] else some [String.mk tok]
  | [], .squote, _, _ => none
  | [], .dquote, _, _ => none
  | [], .escWord, _, _ => none
  | [], .escDquote, _, _ => none
  | c :: rest, .ws, _, _ =>
      if shlexWS c then shlexLoop rest .ws [] false
      else if c = '\\' then shlexLoop rest .escWord [] false
      else if c = '\'' then shlexLoop rest .squote [] true
      else if c = '\"' then shlexLoop rest .dquote [] true
      else shlexLoop rest .word [c] false
  | c :: rest, .word, tok, quoted =>
      if shlexWS c then
        if tok = [] && !quoted then shlexLoop rest .ws [] false
        else (shlexLoop rest .ws [] false).map (fun ts => String.mk tok :: ts)
      else if c = '\'' then shlexLoop rest .squote tok true
      else if c = '\"' then shlexLoop rest .dquote tok true
      else if c = '\\' then shlexLoop rest .escWord tok quoted
      else shlexLoop rest .word (tok ++ [c]) quoted
  | c :: rest, .squote, tok, quoted =>
      if c = '\'' then shlexLoop rest .word tok quoted
      else shlexLoop rest .squote (tok ++ [c]) quoted
  | c :: rest, .dquote, tok, quoted =>
      if c = '\"' then shlexLoop rest .word tok quoted
      else if c = '\\' then shlexLoop rest .escDquote tok quoted
      else shlexLoop rest .dquote (tok ++ [c]) quoted
  | c :: rest, .escWord, tok, quoted =>
      shlexLoop rest .word (tok ++ [c]) quoted
  | c :: rest, .escDquote, tok, quoted =>
      if c = '\\' || c = '\"' then shlexLoop rest .dquote (tok ++ [c]) quoted
      else shlexLoop rest .dquote (tok ++ ['\\', c]) quoted

/-- Model of `shlex.split(command)`: `none` models the raised `ValueError`. -/
def shlexSplit (s : String) : Option (List String) :=
  shlexLoop s.data .ws [] false

/-- Whitespace stripped by the Python `str.strip()` / `int(str)` calls (ASCII
fragment; non-ASCII whitespace is not modelled). -/
def pySpace (c : Char) : Bool :=
  c = ' ' || c = '\t' || c = '\n' || c = '\r' || c = '\x0b' || c = '\x0c'

/-- Python `str.strip()`: drop leading and trailing whitespace. -/
def pyStrip (s : String) : String :=
  String.mk (((s.data.dropWhile pySpace).reverse.dropWhile pySpace).reverse)

/-- Characters after the last `/` of the input. -/
def basenameChars : List Char → List Char → List Char
  | [], acc => acc
  | c :: rest, acc =>
      if c = '/' then basenameChars rest [] else basenameChars rest (acc ++ [c])

/-- Model of `os.path.basename` on POSIX: everything after the last `/`. -/
def basename (p : String) : String :=
  String.mk (basenameChars p.data [])

/-- The default `ALLOWED_COMMANDS` environment value of
`ShellExecutor.__init__`, already split on `,` and stripped. -/
def defaultAllowedCommands : List String :=
  ["git", "ls", "cat", "echo", "python", "python3", "pip", "pip3", "uv",
   "rg", "rgp", "ruff", "black"]

/-- Model of `ShellExecutor._is_allowed`: tokenization must succeed, the vector must
be nonempty, and the base name of the first token must be a (case-sensitive,
exact) member of the configured allowlist. -/
def is_allowed (allowed : List String) (command : String) : Bool :=
  match shlexSplit command with
  | none => false
  | some [] => false
  | some (p :: _) => allowed.contains (basename p)

/-- Outcome of the spawned child process, had one been spawned: the
`subprocess.run(..., check=True, capture_output=True, timeout=...)` call can
return normally (exit 0), raise `CalledProcessError` (nonzero exit, with
captured stdout/stderr and the exit code), raise `TimeoutExpired`, or raise
any other exception (e.g. `FileNotFoundError` for a missing executable). -/
inductive ExecOutcome where
  | success (stdout : String)
  | nonzero (stdout stderr : String) (exitCode : Int)
  | timeout
  | other (msg : String)
deriving DecidableEq

/-- Model of `ShellExecutor.run`.  The embedded function takes the child-process
outcome as a parameter; `Except.error` models an exception propagating out
of `run` (the Python code catches only `TimeoutExpired` and
`CalledProcessError`).  `pyStrip` models the Python `str.strip()`. -/
def ShellExecutor.run (allowed : List String) (outcome : ExecOutcome)
    (command : String) : Except String String :=
  if !is_allowed allowed command then Except.ok "❌ Command not allowed by policy"
  else
    match outcome with
    | .success stdout => Except.ok (pyStrip stdout)
    | .nonzero _ stderr _ => Except.ok ("❌ Error: " ++ pyStrip stderr)
    | .timeout => Except.ok "❌ Error: command timeout"
    | .other msg => Except.error msg

/-! ## Semantic memory / task store (`memory/semantic_store.py`)

The SQLite tables become explicit Lean state: the FTS5 `memory_fts` table is
a list of `MemoryEntry` rows in insertion order, and the `tasks` table is a
list of `Task` rows plus the `AUTOINCREMENT` counter (which starts at 1 and
only ever grows).  SQL `ORDER BY priority ASC, id ASC` is modelled by
sorting with the corresponding lexicographic relation. -/

structure MemoryEntry where
  content : String
  metadata : String
  created_at : String
deriving DecidableEq

/-- Model of `upsert_memory`: appends one row to `memory_fts`.  The Python expression
`(metadata and str(metadata)) or "\x7b\x7d"` serializes a present, nonempty
metadata dict and falls back to the literal two-character brace string; the
embedding receives the already-serialized text (or `none`). -/
def upsert_memory (created_at content : String) (metadata : Option String)
    (mem : List MemoryEntry) : List MemoryEntry :=
  mem ++ [⟨content, metadata.getD "\x7b\x7d", created_at⟩]

structure Task where
  id : Nat
  title : String
  description : String
  status : String
  priority : Int
  created_at : String
  updated_at : Option String
deriving DecidableEq

structure TaskStore where
  tasks : List Task
  nextId : Nat
deriving DecidableEq

/-- Row order produced by `ORDER BY priority ASC, id ASC`. -/
def taskLE (a b : Task) : Prop :=
  a.priority < b.priority ∨ (a.priority = b.priority ∧ a.id ≤ b.id)

instance : DecidableRel taskLE := fun a b =>
  inferInstanceAs (Decidable (a.priority < b.priority ∨ (a.priority = b.priority ∧ a.id ≤ b.id)))

instance : IsTotal Task taskLE := by
  constructor
  intro a b
  unfold taskLE
  rcases lt_trichotomy a.priority b.priority with h | h | h
  · exact Or.inl (Or.inl h)
  · rcases Nat.le_total a.id b.id with h2 | h2
    · exact Or.inl (Or.inr ⟨h, h2⟩)
    · exact Or.inr (Or.inr ⟨h.symm, h2⟩)
  · exact Or.inr (Or.inl h)

instance : IsTrans Task taskLE := by
  constructor
  intro a b c hab hbc
  unfold taskLE at *
  rcases hab with h1 | ⟨h1, h1'⟩
  · rcases hbc with h2 | ⟨h2, _⟩
    · exact Or.inl (h1.trans h2)
    · exact Or.inl (h2 ▸ h1)
  · rcases hbc with h2 | ⟨h2, h2'⟩
    · exact Or.inl (h1 ▸ h2)
    · exact Or.inr ⟨h1.trans h2, h1'.trans h2'⟩

/-- Model of `add_task`: an `INSERT INTO tasks` with status `queued`,
followed by returning `cur.lastrowid`.  The fresh row receives the
`AUTOINCREMENT` id. -/
def add_task (created_at title description : String) (priority : Int)
    (s : TaskStore) : Nat × TaskStore :=
  (s.nextId,
   ⟨s.tasks ++ [⟨s.nextId, title, description, "queued", priority, created_at, none⟩],
    s.nextId + 1⟩)

/-- Model of `list_tasks`: optional `WHERE status=?` filter, then
`ORDER BY priority ASC, id ASC`. -/
def list_tasks (statusFilter : Option String) (s : TaskStore) : List Task :=
  let rows := match statusFilter with
    | some st => s.tasks.filter (fun t => t.status = st)
    | none => s.tasks
  List.insertionSort taskLE rows

/-- Model of `update_task_status`: `UPDATE tasks SET status=?, updated_at=? WHERE
id=?`.  The statement touches exactly the rows whose id matches and is a
silent no-op when none does; the Python function has no error path. -/
def update_task_status (updated_at : String) (s : TaskStore) (task_id : Nat)
    (status : String) : TaskStore :=
  { s with
    tasks := s.tasks.map (fun t =>
      if t.id = task_id then { t with status := status, updated_at := some updated_at }
      else t) }

/-! ## Signed-request authenticator (`main.py`, `verify_signature`)

The HMAC-SHA256 primitive (`hmac.new(secret, msg, sha256).hexdigest()`) is a
standard-library call outside this repository, so the embedding abstracts it
as a parameter `mac : String → String → String` (key, message ↦ hex digest);
`hmac.compare_digest` is constant-time string equality, modelled as plain
equality.  Request body bytes are modelled as the string they decode to, and
`timestamp.encode() + b"." + body_bytes` becomes string concatenation. -/

/-- Decimal digits possibly separated by single underscores, each underscore
strictly between two digits, accumulating the value. -/
def pyDigitsAux : List Char → Nat → Option Nat
  | [], acc => some acc
  | '_' :: c :: rest, acc =>
      if c.isDigit then pyDigitsAux rest (acc * 10 + (c.toNat - 48)) else none
  | ['_'], _ => none
  | c :: rest, acc =>
      if c.isDigit then pyDigitsAux rest (acc * 10 + (c.toNat - 48)) else none

/-- Digit run that must start with a digit. -/
def pyDigits : List Char → Option Nat
  | [] => none
  | c :: rest =>
      if c.isDigit then pyDigitsAux rest (c.toNat - 48) else none

/-- Python `int(s)` for base 10: strip surrounding whitespace, optional
sign, decimal digits with legal underscores.  `none` models the raised
`ValueError`.  (Non-ASCII decimal digits are not modelled.) -/
def pyInt? (s : String) : Option Int :=
  match (pyStrip s).data with
  | '+' :: rest => (pyDigits rest).map (fun n => (n : Int))
  | '-' :: rest => (pyDigits rest).map (fun n => -(n : Int))
  | rest => (pyDigits rest).map (fun n => (n : Int))

/-- Model of `verify_signature(x_timestamp, x_signature, body_bytes)`.  The result
`Except.error d` models `HTTPException(status_code=401, detail=d)`; `now`
is `int(time.time())` at the moment of the check.  The Python check
`if not x_timestamp or not x_signature` treats a missing header and an
empty-string header alike. -/
def verify_signature (mac : String → String → String) (secret : String)
    (now : Int) (x_timestamp x_signature : Option String) (body : String) :
    Except String Unit :=
  match x_timestamp, x_signature with
  | some ts, some sig =>
      if ts = "" ∨ sig = "" then Except.error "missing auth headers"
      else
        match pyInt? ts with
        | none => Except.error "invalid timestamp"
        | some tsv =>
            if 300 < (now - tsv).natAbs then Except.error "stale request"
            else if mac secret (ts ++ "." ++ body) = sig then Except.ok ()
            else Except.error "bad signature"
  | _, _ => Except.error "missing auth headers"

/-! ## Rate limiter (`main.py`, `rate_limit`)

The deployment default has no `REDIS_URL`, so `redis_client is None` and the
in-process branch runs: a map `last_seen : ip → (bucket_ts, tokens)`.
Wall-clock instants and token counts are Python floats; they are embedded as
rationals (the claims under verification only exercise values on which float
arithmetic is exact).  `none` models `HTTPException(429)`; on denial the
map is not written. -/

abbrev Buckets := String → Option (ℚ × ℚ)

/-- Model of `rate_limit(request)` for one client ip over explicit bucket state. -/
def rate_limit (rps now : ℚ) (ip : String) (last_seen : Buckets) :
    Option Buckets :=
  if rps ≤ 0 then some last_seen
  else
    let p := (last_seen ip).getD (now, rps)
    let tokens := min rps (p.2 + (now - p.1) * rps)
    if tokens < 1 then none
    else some (fun j => if j = ip then some (now, tokens - 1) else last_seen j)

/-- A burst of `n` back-to-back admission checks from one client at one
instant, recording each decision in order. -/
def rateLimitBurst (rps now : ℚ) (ip : String) :
    Nat → Buckets → List Bool × Buckets
  | 0, ls => ([], ls)
  | n + 1, ls =>
      match rate_limit rps now ip ls with
      | none =>
          let r := rateLimitBurst rps now ip n ls
          (false :: r.1, r.2)
      | some ls1 =>
          let r := rateLimitBurst rps now ip n ls1
          (true :: r.1, r.2)

/-! ## Gateway / dispatcher (`main.py` endpoint handlers)

Each privileged FastAPI endpoint (`/invoke`, `/stream`, `/shell`,
`/partner`) is declared with `_rl=Depends(rate_limit)` and then calls
`verify_signature(...)` as the first statement of the handler body.  FastAPI
resolves dependencies before the handler body runs, so the admission check
executes first and the signature check second; the embedding fixes exactly
this order.  Process-wide mutable state is collected in `GatewayState`; the
Ollama completer and the FTS5 search are opaque parameters. -/

structure GatewayState where
  buckets : Buckets
  mem : List MemoryEntry
  tasksDb : TaskStore

/-- HTTP-level result: a successful JSON payload or an error status with
its `detail` string. -/
inductive HResult (α : Type) where
  | ok (val : α)
  | err (status : Nat) (detail : String)
deriving DecidableEq

/-- Shared shape of the four privileged handlers: dependency-resolved rate
limiting, then in-body signature verification, then the endpoint-specific
work.  `429` is raised by `rate_limit` before the body runs; a `401` from
`verify_signature` happens after the limiter has already committed its
bucket update. -/
def privileged_pipeline {α : Type} (rps nowq : ℚ) (ip : String)
    (mac : String → String → String) (secret : String) (now : Int)
    (x_timestamp x_signature : Option String) (body : String)
    (dispatch : GatewayState → HResult α × GatewayState)
    (st : GatewayState) : HResult α × GatewayState :=
  match rate_limit rps nowq ip st.buckets with
  | none => (.err 429 "rate limit", st)
  | some b =>
      let st1 := { st with buckets := b }
      match verify_signature mac secret now x_timestamp x_signature body with
      | .error d => (.err 401 d, st1)
      | .ok _ => dispatch st1

/-- Model of the `POST /shell` handler `run_shell`: after auth and admission it calls
`shell.run(req.command)` and returns the output string; an exception
escaping the executor surfaces as a 500.  It performs no memory-store
write. -/
def run_shell (allowed : List String) (outcome : ExecOutcome)
    (command : String) (rps nowq : ℚ) (ip : String)
    (mac : String → String → String) (secret : String) (now : Int)
    (x_timestamp x_signature : Option String) (body : String)
    (st : GatewayState) : HResult String × GatewayState :=
  privileged_pipeline rps nowq ip mac secret now x_timestamp x_signature body
    (fun st1 =>
      match ShellExecutor.run allowed outcome command with
      | .ok out => (.ok out, st1)
      | .error e => (.err 500 e, st1)) st

/-- Model of the `POST /invoke` handler: after auth and admission it calls the opaque
completer on the prompt and returns its output.  No memory-store write. -/
def invoke (completer : String → String) (prompt : String) (rps nowq : ℚ)
    (ip : String) (mac : String → String → String) (secret : String)
    (now : Int) (x_timestamp x_signature : Option String) (body : String)
    (st : GatewayState) : HResult String × GatewayState :=
  privileged_pipeline rps nowq ip mac secret now x_timestamp x_signature body
    (fun st1 => (.ok (completer prompt), st1)) st

/-- Model of the `POST /stream` handler: after auth and admission it returns the chunk
stream produced by the opaque streaming completer. -/
def stream (chunks : String → List String) (prompt : String) (rps nowq : ℚ)
    (ip : String) (mac : String → String → String) (secret : String)
    (now : Int) (x_timestamp x_signature : Option String) (body : String)
    (st : GatewayState) : HResult (List String) × GatewayState :=
  privileged_pipeline rps nowq ip mac secret now x_timestamp x_signature body
    (fun st1 => (.ok (chunks prompt), st1)) st

/-- Model of the `POST /partner` handler: after auth and admission,
`LotlOpsDaemon.partner` adds a task (title = first 80 characters of the
instruction), recalls up to 3 memories through the opaque search, asks the
completer for a plan, and returns `(task_id, plan, context)`.  The per-
request daemon constructs its `ContextStore` fresh and discards it with the
request, so it carries no persistent state. -/
def partner (completer : String → String)
    (searchFn : String → Int → List MemoryEntry) (created_at : String)
    (instruction : String) (rps nowq : ℚ) (ip : String)
    (mac : String → String → String) (secret : String) (now : Int)
    (x_timestamp x_signature : Option String) (body : String)
    (st : GatewayState) :
    HResult (Nat × String × List MemoryEntry) × GatewayState :=
  privileged_pipeline rps nowq ip mac secret now x_timestamp x_signature body
    (fun st1 =>
      let r := add_task created_at (instruction.take 80) instruction 5 st1.tasksDb
      let recalls := searchFn instruction 3
      let context := String.intercalate "\n" (recalls.map MemoryEntry.content)
      let plan := completer ("You are APEX partner. Instruction: " ++ instruction
        ++ "\nRelevant context:\n" ++ context
        ++ "\nPlan concise next steps as a numbered list.")
      (.ok (r.1, plan, recalls), { st1 with tasksDb := r.2 })) st

/-- Model of the `GET /tasks` handler: no auth headers, no rate-limit dependency; it
returns `list_tasks()` over the current store. -/
def tasks_handler (st : GatewayState) : HResult (List Task) × GatewayState :=
  (.ok (list_tasks none st.tasksDb), st)

/-- Model of the `POST /memory/search` handler: no auth headers, no rate-limit
dependency; `req.limit or 5` replaces both a missing and a zero limit by 5
(Python truthiness). -/
def memory_search (searchFn : String → Int → List MemoryEntry) (q : String)
    (limit : Option Int) (st : GatewayState) :
    HResult (List MemoryEntry) × GatewayState :=
  let l := match limit with
    | none => 5
    | some l => if l = 0 then 5 else l
  (.ok (searchFn q l), st)

/-- Fresh gateway state: no rate-limiter buckets yet, empty memory table,
empty task table with the `AUTOINCREMENT` counter at 1. -/
def emptyState : GatewayState := ⟨fun _ => none, [], ⟨[], 1⟩⟩

/-! ## Helper lemmas -/

/-- A `WHERE id=?` update over rows none of which matches is the identity. -/
lemma map_update_id (updated_at status : String) (task_id : Nat) :
    ∀ l : List Task, (∀ t ∈ l, t.id ≠ task_id) →
      l.map (fun t =>
        if t.id = task_id then { t with status := status, updated_at := some updated_at }
        else t) = l := by
  intro l h
  induction l with
  | nil => rfl
  | cons a l ih =>
      simp only [List.map_cons]
      rw [if_neg (h a (by simp)), ih (fun t ht => h t (List.mem_cons_of_mem a ht))]

/-! ## Claims about the allowlisted executor -/

/-- Claim C2: for every command line whose tokenization fails (unbalanced
quotes), or whose token vector is empty, or where the base name of the
first token is
not a case-sensitive exact member of the configured allowlist,
`ShellExecutor.run` returns the Denied diagnostic; the result is the same
for every possible child-process outcome, so the subprocess branch is
unreachable and no child process is spawned. -/
theorem C2_denied_no_spawn (allowed : List String) (command : String)
    (outcome : ExecOutcome)
    (h : shlexSplit command = none ∨ shlexSplit command = some [] ∨
      ∃ t0 ts, shlexSplit command = some (t0 :: ts) ∧
        allowed.contains (basename t0) = false) :
    ShellExecutor.run allowed outcome command
      = Except.ok "❌ Command not allowed by policy" := by
  have hna : is_allowed allowed command = false := by
    unfold is_allowed
    rcases h with h | h | ⟨t0, ts, h, hc⟩
    · rw [h]
    · rw [h]
    · rw [h]; exact hc
  unfold ShellExecutor.run
  rw [hna]
  rfl

/-- Witness for C2 at the concrete command `rm -rf /` (base name `rm` is
not in the default allowlist): `run` denies it whatever the child process
would have produced. -/
theorem C2_witness :
    ShellExecutor.run defaultAllowedCommands (ExecOutcome.success "x") "rm -rf /"
      = Except.ok "❌ Command not allowed by policy" :=
  C2_denied_no_spawn defaultAllowedCommands "rm -rf /" (ExecOutcome.success "x")
    (Or.inr (Or.inr ⟨"rm", ["-rf", "/"], by decide, by decide⟩))

/-- Counterexample to claim C3: an allowlisted command whose execution hits
an exception other than timeout/nonzero-exit (for example a
`FileNotFoundError`) makes `ShellExecutor.run` raise rather than return a
`Failed` value, and on nonzero exit the returned string carries only the
captured stderr — the captured stdout (`"out"`) and the exit code (2) are
discarded, contradicting the claimed `{stdout, stderr, exitCode}` result. -/
theorem C3_counterexample :
    ShellExecutor.run defaultAllowedCommands (ExecOutcome.other "FileNotFoundError") "ls"
        = Except.error "FileNotFoundError"
    ∧ ShellExecutor.run defaultAllowedCommands (ExecOutcome.nonzero "out" "err" 2) "ls"
        = Except.ok "❌ Error: err" := by
  exact ⟨rfl, rfl⟩

/-- Claim C3 as amended: for every allowlisted command, `run` returns the
stripped stdout on zero exit, the diagnostic `❌ Error: ` followed by the
stripped stderr on nonzero exit (stdout and exit code are discarded), the
timeout diagnostic on timeout, and lets any other execution failure
propagate as an exception. -/
theorem C3_run_contract (allowed : List String) (command : String)
    (outcome : ExecOutcome) (h : is_allowed allowed command = true) :
    ShellExecutor.run allowed outcome command =
      match outcome with
      | .success stdout => Except.ok (pyStrip stdout)
      | .nonzero _ stderr _ => Except.ok ("❌ Error: " ++ pyStrip stderr)
      | .timeout => Except.ok "❌ Error: command timeout"
      | .other msg => Except.error msg := by
  unfold ShellExecutor.run
  rw [h]
  rfl

/-- Witness for C3 (amended) at the allowlisted command `ls` with a
zero-exit child whose stdout is `" hi "`. -/
theorem C3_witness :
    ShellExecutor.run defaultAllowedCommands (ExecOutcome.success " hi ") "ls"
      = Except.ok "hi" := by
  have h := C3_run_contract defaultAllowedCommands "ls" (ExecOutcome.success " hi ")
    (by decide)
  exact h.trans (by rfl)

/-! ## Claims about the task store -/

/-- Counterexample to claim C4: updating a task id (99) that is not in the
table completes normally — the embedded operation is total, there is no
`NotFound` error path in `update_task_status` — and merely leaves the table
unchanged. -/
theorem C4_counterexample :
    update_task_status "2024-01-02"
        ⟨[⟨1, "t1", "d1", "queued", 5, "2024-01-01", none⟩], 2⟩ 99 "done"
      = ⟨[⟨1, "t1", "d1", "queued", 5, "2024-01-01", none⟩], 2⟩ := by
  decide

/-- Claim C4 as amended: `update_task_status` never fails: on a task id not
present in the table it is a silent no-op that leaves the table unchanged,
and on every present id it succeeds with any new status (no transition
validation) and sets `updated_at`. -/
theorem C4_update_total (updated_at : String) (s : TaskStore) (task_id : Nat)
    (status : String) :
    ((∀ t ∈ s.tasks, t.id ≠ task_id) →
        update_task_status updated_at s task_id status = s)
    ∧ (update_task_status updated_at s task_id status).tasks.length
        = s.tasks.length
    ∧ ∀ t ∈ s.tasks, t.id = task_id →
        { t with status := status, updated_at := some updated_at }
          ∈ (update_task_status updated_at s task_id status).tasks := by
  refine ⟨?_, ?_, ?_⟩
  · intro h
    unfold update_task_status
    rw [map_update_id updated_at status task_id s.tasks h]
  · unfold update_task_status
    exact List.length_map _ _
  · intro t ht htid
    unfold update_task_status
    refine List.mem_map.mpr ⟨t, ht, ?_⟩
    dsimp only
    rw [if_pos htid]

/-- Witness for C4 (amended): updating task id 7 in an empty table is a
silent no-op. -/
theorem C4_witness :
    update_task_status "n" ⟨[], 1⟩ 7 "x" = ⟨[], 1⟩ :=
  (C4_update_total "n" ⟨[], 1⟩ 7 "x").1 (by simp)

/-- Claim C9: `list_tasks` always returns rows sorted by priority
ascending, ties broken by id ascending; `add_task` hands out the current
`AUTOINCREMENT` id and bumps it, so ids are strictly increasing in
insertion order; and in particular adding `t1` at priority 1 then `t2` at
priority 5 lists `t1` before `t2`. -/
theorem C9_listing_order :
    (∀ (statusFilter : Option String) (s : TaskStore),
        List.Sorted taskLE (list_tasks statusFilter s))
    ∧ (∀ (created_at title description : String) (priority : Int) (s : TaskStore),
        (add_task created_at title description priority s).1 = s.nextId
        ∧ (add_task created_at title description priority s).2.nextId
            = s.nextId + 1)
    ∧ (list_tasks none
          (add_task "n2" "t2" "d2" 5 (add_task "n1" "t1" "d1" 1 ⟨[], 1⟩).2).2).map
            Task.title
        = ["t1", "t2"] := by
  refine ⟨?_, ?_, ?_⟩
  · intro statusFilter s
    exact List.sorted_insertionSort taskLE _
  · intro created_at title description priority s
    exact ⟨rfl, rfl⟩
  · decide

/-! ## Claims about the public endpoints -/

/-- Claim C10: the `GET /tasks` and `POST /memory/search` handlers take no
signature or timestamp input at all and have no rate-limit dependency: on
every gateway state they return a successful payload (never a 401 or 429)
and return the state — including every rate-limiter bucket — unchanged. -/
theorem C10_public_endpoints :
    ∀ (st : GatewayState) (q : String) (limit : Option Int)
      (searchFn : String → Int → List MemoryEntry),
      (∃ v, tasks_handler st = (HResult.ok v, st))
      ∧ (∃ v, memory_search searchFn q limit st = (HResult.ok v, st)) := by
  intro st q limit searchFn
  exact ⟨⟨_, rfl⟩, ⟨_, rfl⟩⟩

/-! ## Claims about the authenticator -/

/-- Claim C5: for every request both of whose auth headers are present and
whose timestamp parses as an integer `tsv`, `verify_signature` rejects with
`stale request` exactly when `|now - tsv| > 300` seconds — past-dated and
future-dated timestamps alike; in particular a valid signed request
replayed 301 or more seconds after its timestamp is rejected as stale. -/
theorem C5_stale_window (mac : String → String → String) (secret : String)
    (now : Int) (ts sig body : String) (tsv : Int)
    (hts : pyInt? ts = some tsv) (hsig : sig ≠ "") :
    verify_signature mac secret now (some ts) (some sig) body
        = Except.error "stale request"
      ↔ 300 < (now - tsv).natAbs := by
  have hne : ts ≠ "" := by
    intro h
    rw [h, show pyInt? "" = none by decide] at hts
    exact Option.noConfusion hts
  simp only [verify_signature]
  rw [if_neg (fun h => h.elim hne hsig), hts]
  dsimp only
  by_cases hgt : 300 < (now - tsv).natAbs
  · rw [if_pos hgt]
    simp [hgt]
  · rw [if_neg hgt]
    constructor
    · intro h
      by_cases hm : mac secret (ts ++ "." ++ body) = sig
      · rw [if_pos hm] at h
        exact absurd h (by simp)
      · rw [if_neg hm] at h
        exact absurd (Except.error.inj h) (by decide)
    · intro h
      exact absurd h hgt

/-- Witness for C5: a request timestamped 0 verified at `now = 400`
(replayed 400 seconds later) is rejected as stale. -/
theorem C5_witness :
    verify_signature (fun k m => k ++ "|" ++ m) "s" 400 (some "0") (some "sig") "b"
      = Except.error "stale request" := by
  have h := C5_stale_window (fun k m => k ++ "|" ++ m) "s" 400 "0" "sig" "b" 0
    (by decide) (by decide)
  exact h.mpr (by decide)

/-- Claim C6: for a fresh, well-formed request, `verify_signature` accepts
exactly when the supplied signature equals the keyed digest of
`timestamp ++ "." ++ body`; consequently, whenever the body differs from
the one the signature was computed over (so that the two digests differ —
HMAC-SHA256 collision freedom, which lives outside the embedded code),
verification fails with `bad signature`. -/
theorem C6_signature_check (mac : String → String → String) (secret : String)
    (now : Int) (ts sig body body0 : String) (tsv : Int)
    (hts : pyInt? ts = some tsv) (hsig : sig ≠ "")
    (hfresh : (now - tsv).natAbs ≤ 300) :
    (verify_signature mac secret now (some ts) (some sig) body = Except.ok ()
        ↔ mac secret (ts ++ "." ++ body) = sig)
    ∧ (mac secret (ts ++ "." ++ body0) = sig →
        mac secret (ts ++ "." ++ body) ≠ mac secret (ts ++ "." ++ body0) →
        verify_signature mac secret now (some ts) (some sig) body
          = Except.error "bad signature") := by
  have hne : ts ≠ "" := by
    intro h
    rw [h, show pyInt? "" = none by decide] at hts
    exact Option.noConfusion hts
  have hgt : ¬ 300 < (now - tsv).natAbs := not_lt.mpr hfresh
  simp only [verify_signature]
  rw [if_neg (fun h => h.elim hne hsig), hts]
  dsimp only
  rw [if_neg hgt]
  constructor
  · by_cases hm : mac secret (ts ++ "." ++ body) = sig
    · rw [if_pos hm]
      simp [hm]
    · rw [if_neg hm]
      constructor
      · intro h
        exact Except.noConfusion h
      · intro h
        exact absurd h hm
  · intro h0 hdiff
    have hm : mac secret (ts ++ "." ++ body) ≠ sig := fun he =>
      hdiff (he.trans h0.symm)
    rw [if_neg hm]

/-- Witness for C6: with the digest function instantiated concretely, the
correctly signed body `b` is accepted, and the tampered body `tampered`
under the unchanged signature is rejected with `bad signature`. -/
theorem C6_witness :
    verify_signature (fun k m => k ++ "|" ++ m) "s" 10 (some "9")
        (some "s|9.b") "tampered"
      = Except.error "bad signature" := by
  have h := C6_signature_check (fun k m => k ++ "|" ++ m) "s" 10 "9" "s|9.b"
    "tampered" "b" 9 (by decide) (by decide) (by decide)
  exact h.2 (by decide) (by decide)

/-! ## Claims about the rate limiter -/

/-- Evaluation of `rate_limit` on a client whose bucket exists. -/
lemma rate_limit_eval (rps now : ℚ) (ip : String) (ls : Buckets)
    (bts tok : ℚ) (hpos : 0 < rps) (hls : ls ip = some (bts, tok)) :
    rate_limit rps now ip ls =
      if min rps (tok + (now - bts) * rps) < 1 then none
      else some (fun j =>
        if j = ip then some (now, min rps (tok + (now - bts) * rps) - 1)
        else ls j) := by
  unfold rate_limit
  rw [if_neg (not_le.mpr hpos), hls]
  rfl

/-- Evaluation of `rate_limit` on a client with no bucket yet: the bucket
defaults to `(now, rps)`. -/
lemma rate_limit_eval_fresh (rps now : ℚ) (ip : String) (ls : Buckets)
    (hpos : 0 < rps) (hls : ls ip = none) :
    rate_limit rps now ip ls =
      if min rps (rps + (now - now) * rps) < 1 then none
      else some (fun j =>
        if j = ip then some (now, min rps (rps + (now - now) * rps) - 1)
        else ls j) := by
  unfold rate_limit
  rw [if_neg (not_le.mpr hpos), hls]
  rfl

/-- An instantaneous burst against a bucket holding a whole number `c ≤ R`
of tokens admits exactly `c` requests and denies the rest. -/
lemma rateLimitBurst_count (R : ℕ) (hR : 1 ≤ R) (now : ℚ) (ip : String) :
    ∀ (m c : ℕ) (ls : Buckets), c ≤ R → ls ip = some (now, (c : ℚ)) →
      (rateLimitBurst (R : ℚ) now ip m ls).1
        = List.replicate (min m c) true ++ List.replicate (m - c) false := by
  have hpos : (0 : ℚ) < R := by
    exact_mod_cast Nat.lt_of_lt_of_le Nat.zero_lt_one hR
  intro m
  induction m with
  | zero =>
      intro c ls _ _
      simp [rateLimitBurst]
  | succ m ih =>
      intro c ls hc hls
      have heval := rate_limit_eval (R : ℚ) now ip ls now (c : ℚ) hpos hls
      have htok : min (R : ℚ) ((c : ℚ) + (now - now) * R) = (c : ℚ) := by
        rw [sub_self, zero_mul, add_zero]
        exact min_eq_right (by exact_mod_cast hc)
      rw [htok] at heval
      rcases Nat.eq_zero_or_pos c with hc0 | hc1
      · subst hc0
        have hnone : rate_limit (R : ℚ) now ip ls = none := by
          rw [heval, if_pos (by norm_num)]
        unfold rateLimitBurst
        rw [hnone]
        dsimp only
        rw [ih 0 ls (Nat.zero_le R) hls]
        simp [List.replicate_succ]
      · have hcq : ¬ ((c : ℚ) < 1) := not_lt.mpr (by exact_mod_cast hc1)
        have hsome : rate_limit (R : ℚ) now ip ls
            = some (fun j => if j = ip then some (now, (c : ℚ) - 1) else ls j) := by
          rw [heval, if_neg hcq]
        unfold rateLimitBurst
        rw [hsome]
        dsimp only
        have hls1 : (fun j => if j = ip then some (now, (c : ℚ) - 1) else ls j) ip
            = some (now, ((c - 1 : ℕ) : ℚ)) := by
          dsimp only
          rw [if_pos rfl, Nat.cast_sub hc1, Nat.cast_one]
        rw [ih (c - 1) _ (le_trans (Nat.sub_le c 1) hc) hls1]
        have h1 : min (m + 1) c = min m (c - 1) + 1 := by omega
        have h2 : m + 1 - c = m - (c - 1) := by omega
        rw [h1, h2, List.replicate_succ, List.cons_append]

/-- Claim C7: with integer capacity `R ≥ 1` and no prior bucket, a burst of
`R + k` simultaneous admission checks from one client admits exactly the
first `R` and denies the remaining `k`; and whenever an admission succeeds
against an existing bucket, the new bucket holds the lazily refilled token
count `min R (tok + elapsed·R)` minus exactly one token, timestamped
`now`. -/
theorem C7_burst_admission (R k : ℕ) (hR : 1 ≤ R) (now : ℚ) (ip : String) :
    (rateLimitBurst (R : ℚ) now ip (R + k) (fun _ => none)).1
      = List.replicate R true ++ List.replicate k false
    ∧ ∀ (ls ls1 : Buckets) (bts tok : ℚ), ls ip = some (bts, tok) →
        rate_limit (R : ℚ) now ip ls = some ls1 →
        ls1 ip = some (now, min (R : ℚ) (tok + (now - bts) * R) - 1) := by
  have hpos : (0 : ℚ) < R := by
    exact_mod_cast Nat.lt_of_lt_of_le Nat.zero_lt_one hR
  constructor
  · have heval := rate_limit_eval_fresh (R : ℚ) now ip (fun _ => none) hpos rfl
    have htok : min (R : ℚ) ((R : ℚ) + (now - now) * R) = (R : ℚ) := by
      rw [sub_self, zero_mul, add_zero, min_self]
    rw [htok] at heval
    have hRq : ¬ ((R : ℚ) < 1) := not_lt.mpr (by exact_mod_cast hR)
    have hsome : rate_limit (R : ℚ) now ip (fun _ => none)
        = some (fun j => if j = ip then some (now, (R : ℚ) - 1) else none) := by
      rw [heval, if_neg hRq]
    have hsplit : R + k = (R - 1 + k) + 1 := by omega
    rw [hsplit]
    unfold rateLimitBurst
    rw [hsome]
    dsimp only
    have hls1 : (fun j => if j = ip then some (now, (R : ℚ) - 1) else none) ip
        = some (now, ((R - 1 : ℕ) : ℚ)) := by
      dsimp only
      rw [if_pos rfl, Nat.cast_sub hR, Nat.cast_one]
    rw [rateLimitBurst_count R hR now ip (R - 1 + k) (R - 1) _
      (le_trans (Nat.sub_le R 1) le_rfl) hls1]
    have h1 : min (R - 1 + k) (R - 1) = R - 1 := by omega
    have h2 : R - 1 + k - (R - 1) = k := by omega
    rw [h1, h2]
    have hrep : List.replicate R true = true :: List.replicate (R - 1) true := by
      conv_lhs => rw [show R = (R - 1) + 1 by omega]
      rw [List.replicate_succ]
    rw [hrep, List.cons_append]
  · intro ls ls1 bts tok hls hsome
    have heval := rate_limit_eval (R : ℚ) now ip ls bts tok hpos hls
    rw [heval] at hsome
    by_cases hlt : min (R : ℚ) (tok + (now - bts) * R) < 1
    · rw [if_pos hlt] at hsome
      exact Option.noConfusion hsome
    · rw [if_neg hlt] at hsome
      have := Option.some.inj hsome
      rw [← this]
      dsimp only
      rw [if_pos rfl]

/-- Witness for C7: capacity 2, burst of 3 from a fresh client — the first
two are admitted, the third denied. -/
theorem C7_witness :
    (rateLimitBurst ((2 : ℕ) : ℚ) 0 "client" 3 (fun _ => none)).1
      = [true, true, false] := by
  have h := (C7_burst_admission 2 1 (by decide) 0 "client").1
  exact h.trans (by decide)

/-! ## Claims about the privileged gateway pipeline -/

/-- Counterexample to claim C1: on a fresh state, a `/shell` request with an
invalid signature receives a 401, yet the rate limiter — which FastAPI runs
as a dependency before the handler body reaches `verify_signature` — has
already created the bucket of the client and consumed a token (`5` tokens became
`4`), contradicting "no token is consumed and no bucket is created or
updated". -/
theorem C1_counterexample :
    (run_shell defaultAllowedCommands (ExecOutcome.success "hi") "ls" 5 0 "client"
        (fun k m => k ++ "|" ++ m) "secret" 0 (some "0") (some "bad") "b"
        emptyState).1
      = HResult.err 401 "bad signature"
    ∧ emptyState.buckets "client" = none
    ∧ (run_shell defaultAllowedCommands (ExecOutcome.success "hi") "ls" 5 0 "client"
        (fun k m => k ++ "|" ++ m) "secret" 0 (some "0") (some "bad") "b"
        emptyState).2.buckets "client"
      = some (0, 4) := by
  refine ⟨?_, rfl, ?_⟩ <;> with_unfolding_all rfl

/-- Claim C1 as amended: for every privileged request the admission check
runs first — if the limiter denies, the response is 429 with the state
untouched and signature verification never runs (the response is the same
for every signature) — and a request that then fails authentication gets a
401 with the bucket update of the limiter already committed. -/
theorem C1_limiter_before_auth {α : Type} (rps nowq : ℚ) (ip : String)
    (mac : String → String → String) (secret : String) (now : Int)
    (x_timestamp x_signature : Option String) (body : String)
    (dispatch : GatewayState → HResult α × GatewayState) (st : GatewayState) :
    (rate_limit rps nowq ip st.buckets = none →
      privileged_pipeline rps nowq ip mac secret now x_timestamp x_signature
          body dispatch st
        = (HResult.err 429 "rate limit", st))
    ∧ ∀ b d, rate_limit rps nowq ip st.buckets = some b →
        verify_signature mac secret now x_timestamp x_signature body
          = Except.error d →
        privileged_pipeline rps nowq ip mac secret now x_timestamp x_signature
            body dispatch st
          = (HResult.err 401 d, { st with buckets := b }) := by
  constructor
  · intro h
    unfold privileged_pipeline
    rw [h]
  · intro b d h1 h2
    unfold privileged_pipeline
    rw [h1]
    dsimp only
    rw [h2]

/-- Witness for C1 (amended), exercising the 401-after-bucket-update arm at
a concrete request. -/
theorem C1_witness :
    privileged_pipeline 5 0 "client" (fun k m => k ++ "|" ++ m) "secret" 0
        (some "0") (some "bad") "b"
        (fun st1 => (HResult.ok "unused", st1)) emptyState
      = (HResult.err 401 "bad signature",
         { emptyState with buckets := fun j =>
             if j = "client" then some (0, min 5 (5 + (0 - 0) * 5) - 1)
             else emptyState.buckets j }) := by
  have h := (C1_limiter_before_auth 5 0 "client" (fun k m => k ++ "|" ++ m)
    "secret" 0 (some "0") (some "bad") "b"
    (fun st1 => (HResult.ok "unused", st1)) emptyState).2
    (fun j => if j = "client" then some (0, min 5 (5 + (0 - 0) * 5) - 1)
      else emptyState.buckets j)
    "bad signature" (by with_unfolding_all rfl) (by rfl)
  exact h

/-- Counterexample to claim C8: a fully authenticated, admitted and
successfully dispatched `/shell` request returns the executor output, yet
the memory store is exactly as empty afterwards as before — no MemoryEntry
recording the interaction is appended. -/
theorem C8_counterexample :
    (run_shell defaultAllowedCommands (ExecOutcome.success "hello") "echo hello"
        5 0 "client" (fun k m => k ++ "|" ++ m) "secret" 0 (some "0")
        (some "secret|0.b") "b" emptyState).1
      = HResult.ok "hello"
    ∧ (run_shell defaultAllowedCommands (ExecOutcome.success "hello") "echo hello"
        5 0 "client" (fun k m => k ++ "|" ++ m) "secret" 0 (some "0")
        (some "secret|0.b") "b" emptyState).2.mem
      = ([] : List MemoryEntry) := by
  constructor <;> with_unfolding_all rfl

/-- Claim C8 as amended: the `/shell` and `/invoke` handlers never write to
the semantic memory store — on every request, authenticated or not,
dispatched or not, the `memory_fts` table is returned unchanged. -/
theorem C8_no_memory_writeback :
    ∀ (allowed : List String) (outcome : ExecOutcome) (command : String)
      (completer : String → String) (prompt : String) (rps nowq : ℚ)
      (ip : String) (mac : String → String → String) (secret : String)
      (now : Int) (x_timestamp x_signature : Option String) (body : String)
      (st : GatewayState),
      (run_shell allowed outcome command rps nowq ip mac secret now
          x_timestamp x_signature body st).2.mem = st.mem
      ∧ (invoke completer prompt rps nowq ip mac secret now
          x_timestamp x_signature body st).2.mem = st.mem := by
  intros
  constructor
  · unfold run_shell privileged_pipeline
    split
    · rfl
    · split
      · rfl
      · split <;> rfl
  · unfold invoke privileged_pipeline
    split
    · rfl
    · split
      · rfl
      · rfl

end LotlOps
